import Mathlib

/-! Shallow embedding of the statistics aggregation and occupancy
reconciliation core of a worker/housing dashboard (Statistics.tsx). -/

/-- Milliseconds in one day, the divisor used by the stay-duration code. -/
def dayMs : Int := 86400000

/-- JS `Math.round`: floor of `x + 1/2` (halves round toward positive infinity). -/
def jsRound (x : ℚ) : Int := ⌊x + 1/2⌋

/-- Rounding a percentage to two decimals at output: `Math.round(x*100)/100`. -/
def round2 (x : ℚ) : ℚ := (jsRound (x * 100) : ℚ) / 100

/-- Days since 1970-01-01 to a civil (proleptic Gregorian) date
`(year, month, day)`, mirroring the calendar arithmetic JS `Date`
component getters perform on a timezone-free timeline. -/
def civilFromDays (z0 : Int) : Int × Int × Int :=
  let z := z0 + 719468
  let era := Int.fdiv z 146097
  let doe := z - era * 146097
  let yoe := Int.fdiv (doe - Int.fdiv doe 1460 + Int.fdiv doe 36524 - Int.fdiv doe 146096) 365
  let y := yoe + era * 400
  let doy := doe - (365 * yoe + Int.fdiv yoe 4 - Int.fdiv yoe 100)
  let mp := Int.fdiv (5 * doy + 2) 153
  let d := doy - Int.fdiv (153 * mp + 2) 5 + 1
  let m := mp + (if mp < 10 then 3 else -9)
  (y + (if m ≤ 2 then 1 else 0), m, d)

/-- Civil date to days since 1970-01-01; out-of-range components roll over
exactly as JS `Date` setters do (e.g. Feb 29 of a non-leap year is Mar 1). -/
def daysFromCivil (y0 m d : Int) : Int :=
  let y := y0 - (if m ≤ 2 then 1 else 0)
  let era := Int.fdiv y 400
  let yoe := y - era * 400
  let doy := Int.fdiv (153 * (m + (if m > 2 then (-3) else 9)) + 2) 5 + d - 1
  let doe := yoe * 365 + Int.fdiv yoe 4 - Int.fdiv yoe 100 + doy
  era * 146097 + doe - 719468

/-- A worker record, with the fields the statistics page reads.
Dates are timestamps (milliseconds on a timezone-free timeline); `none`
models an absent (JS-falsy) field, and an empty `chambre` models the
JS-falsy "no room assigned" string. -/
structure Worker where
  nom : String
  fermeId : String
  statut : String
  sexe : String
  age : Int
  dateEntree : Option Int
  dateSortie : Option Int
  motif : Option String
  chambre : String
  deriving DecidableEq

/-- A room record, with the fields the statistics page and the
reconciliation logic read. `occupantsActuels` is the stored occupant
counter under suspicion of drift. -/
structure Room where
  fermeId : String
  numero : String
  genre : String
  capaciteTotale : Int
  occupantsActuels : Int
  deriving DecidableEq

def activeWorkers (ws : List Worker) : List Worker :=
  ws.filter (fun w => w.statut == "actif")

def inactiveWorkers (ws : List Worker) : List Worker :=
  ws.filter (fun w => w.statut == "inactif")

def exitedWorkers (ws : List Worker) : List Worker :=
  ws.filter (fun w => w.statut == "inactif" && w.dateSortie.isSome)

def maleWorkers (ws : List Worker) : List Worker :=
  (activeWorkers ws).filter (fun w => w.sexe == "homme")

def femaleWorkers (ws : List Worker) : List Worker :=
  (activeWorkers ws).filter (fun w => w.sexe == "femme")

def maleRooms (rooms : List Room) : List Room :=
  rooms.filter (fun r => r.genre == "hommes")

def femaleRooms (rooms : List Room) : List Room :=
  rooms.filter (fun r => r.genre == "femmes")

def occupiedRooms (rooms : List Room) : List Room :=
  rooms.filter (fun r => decide (r.occupantsActuels > 0))

def fullRooms (rooms : List Room) : List Room :=
  rooms.filter (fun r => decide (r.occupantsActuels ≥ r.capaciteTotale))

def emptyRooms (rooms : List Room) : List Room :=
  rooms.filter (fun r => decide (r.occupantsActuels = 0))

def totalCapacity (rooms : List Room) : Int :=
  rooms.foldl (fun sum room => sum + room.capaciteTotale) 0

/-- The deterministic mapping from a worker's sex to the gender
restriction of the rooms that can house the worker. -/
def genderTypeOf (sexe : String) : String :=
  if sexe == "homme" then "hommes" else "femmes"

/-- The Room Key string a worker is attributed to:
`fermeId-chambre-genderType`. -/
def roomKeyOf (w : Worker) : String :=
  w.fermeId ++ "-" ++ w.chambre ++ "-" ++ genderTypeOf w.sexe

/-- Incrementing a key of an insertion-ordered association map, as JS
`Map.set(k, (Map.get(k) || 0) + 1)` does: an existing key keeps its
position, a new key is appended. -/
def bump : List (String × Int) → String → List (String × Int)
  | [], k => [(k, 1)]
  | (k2, c) :: rest, k =>
      if k2 == k then (k2, c + 1) :: rest else (k2, c) :: bump rest k

/-- The worker-derived Room Key → count map: scan active workers holding
a non-empty room assignment and count them per Room Key. -/
def workerRoomMap (ws : List Worker) : List (String × Int) :=
  (ws.filter (fun w => w.statut == "actif" && w.chambre != "")).foldl
    (fun m w => bump m (roomKeyOf w)) []

def mapValuesSum (m : List (String × Int)) : Int :=
  m.foldl (fun sum kc => sum + kc.2) 0

/-- Occupied places: the sum of the per-Room-Key counts derived from
worker records (the rooms' stored counters are never read). -/
def occupiedPlaces (ws : List Worker) : Int :=
  mapValuesSum (workerRoomMap ws)

def availablePlaces (ws : List Worker) (rooms : List Room) : Int :=
  totalCapacity rooms - occupiedPlaces ws

/-- The unrounded occupancy rate (line 99 of the source): ratio of
occupied places to total capacity, 0 when the capacity is 0. -/
def occupancyRate (ws : List Worker) (rooms : List Room) : ℚ :=
  if totalCapacity rooms > 0 then
    ((occupiedPlaces ws : ℚ) / (totalCapacity rooms : ℚ)) * 100
  else 0

/-- The cutoff instant for the selected time range. The three day-based
ranges subtract a fixed number of days from `now`; the `year` range
mirrors `setFullYear(getFullYear() - 1)`: same calendar date and
time of day, previous year. Any other string falls to the 30-day default. -/
def getTimeThreshold (range : String) (now : Int) : Int :=
  if range = "week" then now - 7 * dayMs
  else if range = "month" then now - 30 * dayMs
  else if range = "quarter" then now - 90 * dayMs
  else if range = "year" then
    let d := Int.fdiv now dayMs
    let msOfDay := now - d * dayMs
    let c := civilFromDays d
    daysFromCivil (c.1 - 1) c.2.1 c.2.2 * dayMs + msOfDay
  else now - 30 * dayMs

/-- JS comparison `new Date(field) >= threshold`: false when the field is
absent (an invalid date compares false). -/
def dateGE (d : Option Int) (threshold : Int) : Bool :=
  match d with
  | some t => decide (threshold ≤ t)
  | none => false

def recentArrivals (ws : List Worker) (threshold : Int) : List Worker :=
  ws.filter (fun w => dateGE w.dateEntree threshold && w.statut == "actif")

def recentExits (ws : List Worker) (threshold : Int) : List Worker :=
  (exitedWorkers ws).filter (fun w => dateGE w.dateSortie threshold)

/-- The grouping label of an exited worker: its exit reason, or the
default label when the reason is absent or empty (JS-falsy). -/
def reasonOf (w : Worker) : String :=
  match w.motif with
  | some s => if s == "" then "Non spécifié" else s
  | none => "Non spécifié"

/-- The exit-reason histogram, in property-creation (insertion) order:
`reduce` into a JS object, `acc[reason] = (acc[reason] || 0) + 1`. -/
def exitReasons (ws : List Worker) : List (String × Int) :=
  (exitedWorkers ws).foldl (fun acc w => bump acc (reasonOf w)) []

/-- The value of a decimal digit character, if it is one. -/
def charDigit (c : Char) : Option Nat :=
  if 48 ≤ c.toNat ∧ c.toNat ≤ 57 then some (c.toNat - 48) else none

/-- The numeric value of a non-empty all-digit character list, read most
significant digit first; `none` on any non-digit. -/
def decValue : List Char → Nat → Option Nat
  | [], acc => some acc
  | c :: rest, acc =>
      match charDigit c with
      | some d => decValue rest (acc * 10 + d)
      | none => none

/-- The numeric value of a string, when it is a non-empty digit string. -/
def strNatValue (s : String) : Option Nat :=
  match s.data with
  | [] => none
  | cs => decValue cs 0

/-- Whether a digit string is the canonical decimal form of a natural
number: non-empty, and no leading zero except for `"0"` itself. -/
def noLeadingZero (s : String) : Bool :=
  match s.data with
  | [] => false
  | [_] => true
  | c :: _ :: _ => c != '0'

/-- Whether a string is a JS array-index key: the canonical decimal form
of an integer below 2^32 - 1. `Object.entries` enumerates such keys
first, in ascending numeric order, before the other string keys. -/
def isArrayIndexKey (s : String) : Bool :=
  match strNatValue s with
  | some n => noLeadingZero s && decide (n < 4294967295)
  | none => false

def numOfKey (s : String) : Nat := (strNatValue s).getD 0

def insertAsc (x : String × Int) : List (String × Int) → List (String × Int)
  | [] => [x]
  | y :: ys => if numOfKey x.1 < numOfKey y.1 then x :: y :: ys else y :: insertAsc x ys

def sortAsc (l : List (String × Int)) : List (String × Int) :=
  l.foldr insertAsc []

/-- `Object.entries` of a JS object with string keys: array-index-like
keys first in ascending numeric order, then the remaining keys in
property-creation order (ECMA-262 ordinary own property key order). -/
def objEntries (m : List (String × Int)) : List (String × Int) :=
  sortAsc (m.filter (fun kc => isArrayIndexKey kc.1))
    ++ m.filter (fun kc => !isArrayIndexKey kc.1)

/-- The head of the stable descending sort by count: the first entry, in
enumeration order, holding the maximum count (`sort(([,a],[,b]) => b - a)[0]`). -/
def selectTop : List (String × Int) → Option (String × Int)
  | [] => none
  | kc :: rest =>
      match selectTop rest with
      | none => some kc
      | some best => if decide (kc.2 ≥ best.2) then some kc else some best

def topExitReasonOf (ws : List Worker) : Option (String × Int) :=
  selectTop (objEntries (exitReasons ws))

/-- Whole-day stay durations of exited workers having both dates:
`Math.floor((exit - entry) / 86400000)` per worker. -/
def staysWithDuration (ws : List Worker) : List Int :=
  ((exitedWorkers ws).filter (fun w => w.dateEntree.isSome && w.dateSortie.isSome)).map
    (fun w => Int.fdiv (w.dateSortie.getD 0 - w.dateEntree.getD 0) dayMs)

def sumInt (l : List Int) : Int := l.foldl (· + ·) 0

def averageStayDuration (ws : List Worker) : Int :=
  if 0 < (staysWithDuration ws).length then
    jsRound ((sumInt (staysWithDuration ws) : ℚ) / ((staysWithDuration ws).length : ℚ))
  else 0

def agesOf (ws : List Worker) : List Int :=
  (activeWorkers ws).map (fun w => w.age)

def averageAge (ws : List Worker) : Int :=
  if 0 < (agesOf ws).length then
    jsRound ((sumInt (agesOf ws) : ℚ) / ((agesOf ws).length : ℚ))
  else 0

def minAge (ws : List Worker) : Int :=
  match agesOf ws with
  | [] => 0
  | a :: rest => rest.foldl min a

def maxAge (ws : List Worker) : Int :=
  match agesOf ws with
  | [] => 0
  | a :: rest => rest.foldl max a

def age18to25 (ws : List Worker) : Nat :=
  ((activeWorkers ws).filter (fun w => decide (w.age ≥ 18) && decide (w.age ≤ 25))).length

def age26to35 (ws : List Worker) : Nat :=
  ((activeWorkers ws).filter (fun w => decide (w.age ≥ 26) && decide (w.age ≤ 35))).length

def age36to45 (ws : List Worker) : Nat :=
  ((activeWorkers ws).filter (fun w => decide (w.age ≥ 36) && decide (w.age ≤ 45))).length

def age46plus (ws : List Worker) : Nat :=
  ((activeWorkers ws).filter (fun w => decide (w.age ≥ 46))).length

/-- The unrounded turnover rate: exited workers over all workers in
scope, as a percentage; 0 when the scope is empty. -/
def turnoverRate (ws : List Worker) : ℚ :=
  if 0 < ws.length then
    (((exitedWorkers ws).length : ℚ) / (ws.length : ℚ)) * 100
  else 0

/-- The unrounded retention rate: the complement of the turnover rate. -/
def retentionRate (ws : List Worker) : ℚ := 100 - turnoverRate ws

def balancedGender (ws : List Worker) : Bool :=
  decide (|((maleWorkers ws).length : Int) - ((femaleWorkers ws).length : Int)|
    ≤ ⌈((activeWorkers ws).length : ℚ) * (2/10)⌉)

/-- The immutable metrics snapshot the aggregation returns. Percentage
fields carry the two-decimal rounding applied at the point of output;
`exitReasons` carries the histogram in JS object key enumeration order. -/
structure Stats where
  totalWorkers : Int
  totalInactiveWorkers : Int
  maleWorkers : Int
  femaleWorkers : Int
  totalRooms : Int
  maleRooms : Int
  femaleRooms : Int
  occupiedRooms : Int
  emptyRooms : Int
  fullRooms : Int
  totalCapacity : Int
  occupiedPlaces : Int
  availablePlaces : Int
  occupancyRate : ℚ
  recentArrivals : Int
  recentExits : Int
  netChange : Int
  averageAge : Int
  minAge : Int
  maxAge : Int
  age18to25 : Int
  age26to35 : Int
  age36to45 : Int
  age46plus : Int
  averageStayDuration : Int
  totalExitedWorkers : Int
  exitReasons : List (String × Int)
  topExitReason : String
  topExitReasonCount : Int
  turnoverRate : ℚ
  retentionRate : ℚ
  utilizationRate : ℚ
  isHighOccupancy : Bool
  isLowOccupancy : Bool
  hasRecentGrowth : Bool
  balancedGender : Bool
  occupancyTrend : ℚ
  workersTrend : ℚ
  deriving DecidableEq

/-- The statistics aggregation: the `useMemo` body of the source, as a
function of the scope-filtered worker and room collections, the selected
time range, and the current instant `now` (the source reads the clock
through `new Date()`; here the instant is an explicit argument). -/
def aggregate (ws : List Worker) (rooms : List Room) (timeRange : String) (now : Int) : Stats :=
  { totalWorkers := ((activeWorkers ws).length : Int)
  , totalInactiveWorkers := ((inactiveWorkers ws).length : Int)
  , maleWorkers := ((maleWorkers ws).length : Int)
  , femaleWorkers := ((femaleWorkers ws).length : Int)
  , totalRooms := (rooms.length : Int)
  , maleRooms := ((maleRooms rooms).length : Int)
  , femaleRooms := ((femaleRooms rooms).length : Int)
  , occupiedRooms := ((occupiedRooms rooms).length : Int)
  , emptyRooms := ((emptyRooms rooms).length : Int)
  , fullRooms := ((fullRooms rooms).length : Int)
  , totalCapacity := totalCapacity rooms
  , occupiedPlaces := occupiedPlaces ws
  , availablePlaces := availablePlaces ws rooms
  , occupancyRate := round2 (occupancyRate ws rooms)
  , recentArrivals := ((recentArrivals ws (getTimeThreshold timeRange now)).length : Int)
  , recentExits := ((recentExits ws (getTimeThreshold timeRange now)).length : Int)
  , netChange := ((recentArrivals ws (getTimeThreshold timeRange now)).length : Int)
      - ((recentExits ws (getTimeThreshold timeRange now)).length : Int)
  , averageAge := averageAge ws
  , minAge := minAge ws
  , maxAge := maxAge ws
  , age18to25 := (age18to25 ws : Int)
  , age26to35 := (age26to35 ws : Int)
  , age36to45 := (age36to45 ws : Int)
  , age46plus := (age46plus ws : Int)
  , averageStayDuration := averageStayDuration ws
  , totalExitedWorkers := ((exitedWorkers ws).length : Int)
  , exitReasons := objEntries (exitReasons ws)
  , topExitReason :=
      match topExitReasonOf ws with
      | some kc => kc.1
      | none => "Aucune"
  , topExitReasonCount :=
      match topExitReasonOf ws with
      | some kc => kc.2
      | none => 0
  , turnoverRate := round2 (turnoverRate ws)
  , retentionRate := round2 (retentionRate ws)
  , utilizationRate := round2 (occupancyRate ws rooms)
  , isHighOccupancy := decide (occupancyRate ws rooms > 85)
  , isLowOccupancy := decide (occupancyRate ws rooms < 50)
  , hasRecentGrowth := decide ((recentArrivals ws (getTimeThreshold timeRange now)).length
      > (recentExits ws (getTimeThreshold timeRange now)).length)
  , balancedGender := balancedGender ws
  , occupancyTrend :=
      if (recentArrivals ws (getTimeThreshold timeRange now)).length
          > (recentExits ws (getTimeThreshold timeRange now)).length
      then 8.5 else -3.2
  , workersTrend :=
      if 0 < (recentArrivals ws (getTimeThreshold timeRange now)).length
      then 12.1 else -5.4 }

/-- Modelled from the spec: the gender-aware Room Key match of §4.1
step 1 — an active worker with a non-empty assignment is attributed to a
room when farm, room number and derived gender restriction all match.
The reconciler itself (`forceSyncRoomOccupancy` in src/utils/syncUtils)
is not among the provided sources. -/
def attributedTo (w : Worker) (r : Room) : Bool :=
  w.statut == "actif" && w.chambre != "" &&
  w.fermeId == r.fermeId && w.chambre == r.numero && genderTypeOf w.sexe == r.genre

/-- Modelled from the spec: the worker-derived occupant count of a room
(§4.1 step 2; 0 when no worker maps to the room's Room Key). -/
def derivedOccupants (ws : List Worker) (r : Room) : Int :=
  ((ws.filter (fun w => attributedTo w r)).length : Int)

/-- One entry of the reconciler's audit list: room number, old and new
stored counts, and the names of the workers now attributed to the room. -/
structure Inconsistency where
  roomNumber : String
  oldOccupants : Int
  newOccupants : Int
  workerNames : List String
  deriving DecidableEq

/-- The result record of the repair operation. -/
structure SyncResult where
  totalRoomsChecked : Int
  roomsUpdated : Int
  inconsistenciesFound : List Inconsistency
  deriving DecidableEq

/-- Modelled from the spec: overwriting a room's stored occupant counter
with the worker-derived count (§4.1 repair step, applied per room). -/
def fixRoom (ws : List Worker) (r : Room) : Room :=
  { r with occupantsActuels := derivedOccupants ws r }

/-- Modelled from the spec: the repair operation `Sync` of §4.1 — every
room is checked; each room whose stored count disagrees with the derived
count is overwritten and recorded; consistent rooms are untouched. The
returned pair is the `SyncResult` and the room collection after the
writes. -/
def forceSyncRoomOccupancy (ws : List Worker) (rooms : List Room) :
    SyncResult × List Room :=
  ({ totalRoomsChecked := (rooms.length : Int)
   , roomsUpdated :=
       (((rooms.filter (fun r => decide (r.occupantsActuels ≠ derivedOccupants ws r))).length : Int))
   , inconsistenciesFound :=
       (rooms.filter (fun r => decide (r.occupantsActuels ≠ derivedOccupants ws r))).map
         (fun r =>
           { roomNumber := r.numero
           , oldOccupants := r.occupantsActuels
           , newOccupants := derivedOccupants ws r
           , workerNames := (ws.filter (fun w => attributedTo w r)).map (fun w => w.nom) }) }
  , rooms.map (fixRoom ws))

/-! ### Concrete instances used by the witnesses and counterexamples -/

/-- The count stored under a label of the histogram (`acc[reason] || 0`):
the value at the first matching key, or 0. -/
def countVal : List (String × Int) → String → Int
  | [], _ => 0
  | (k2, c) :: rest, q => if k2 == q then c else countVal rest q

/-- An exited worker with the given name and exit reason, used to
instantiate the exit-reason and rate claims. -/
def exitW (nm : String) (m : Option String) : Worker :=
  { nom := nm, fermeId := "f1", statut := "inactif", sexe := "homme", age := 30
  , dateEntree := some 0, dateSortie := some dayMs, motif := m, chambre := "" }

/-- An active worker who entered on day 3, used to exhibit the clock
dependence of the aggregation. -/
def c2worker : Worker :=
  { nom := "a", fermeId := "f1", statut := "actif", sexe := "homme", age := 30
  , dateEntree := some (3 * dayMs), dateSortie := none, motif := none, chambre := "" }

/-- An active male worker assigned to room 101 of farm f1, used to
instantiate the reconciliation and rate claims. -/
def c3worker : Worker :=
  { nom := "a", fermeId := "f1", statut := "actif", sexe := "homme", age := 30
  , dateEntree := some 0, dateSortie := none, motif := none, chambre := "101" }

/-- A men's room 101 of farm f1 whose stored count already equals the
derived count for `c3worker`. -/
def c3room : Room :=
  { fermeId := "f1", numero := "101", genre := "hommes", capaciteTotale := 4, occupantsActuels := 1 }

/-- A sample current instant (day 20000) for the time-window scenario. -/
def c4now : Int := 20000 * dayMs

/-- An exited worker whose exit date is 10 days before `c4now`. -/
def c4exitWorker : Worker :=
  { nom := "c", fermeId := "f1", statut := "inactif", sexe := "homme", age := 40
  , dateEntree := some 0, dateSortie := some (c4now - 10 * dayMs), motif := none, chambre := "" }

/-- Scenario D: three exits for contract end, one personal. -/
def c5scenarioD : List Worker :=
  [exitW "a" (some "contract_end"), exitW "b" (some "contract_end"),
   exitW "c" (some "personal"), exitW "d" (some "contract_end")]

/-- Two tied exit reasons, the non-numeric one encountered first. -/
def c5tieList : List Worker :=
  [exitW "a" (some "zebra"), exitW "b" (some "100")]

/-- A two-worker scope with one exited worker, used to instantiate the
rate claims. -/
def c6wsPair : List Worker := [c3worker, exitW "x" (some "end")]

/-- Thirty-two workers of whom exactly one exited: the unrounded rates
are 3.125 and 96.875. -/
def c6ws32 : List Worker := List.replicate 31 c3worker ++ [exitW "x" none]

/-- An exited worker who stayed ten days and a half, used to instantiate
the average-stay claim. -/
def c7worker : Worker :=
  { nom := "d", fermeId := "f1", statut := "inactif", sexe := "femme", age := 30
  , dateEntree := some 0, dateSortie := some (10 * dayMs + 43200000), motif := none, chambre := "" }

/-- A room of capacity 4, used to instantiate the occupancy-rate claim. -/
def c10room : Room :=
  { fermeId := "f1", numero := "101", genre := "hommes", capaciteTotale := 4, occupantsActuels := 0 }

/-! ### Helper lemmas -/

lemma foldl_add_shift (m : List (String × Int)) (a b : Int) :
    m.foldl (fun s kc => s + kc.2) (a + b) = m.foldl (fun s kc => s + kc.2) a + b := by
  induction m generalizing a with
  | nil => simp
  | cons kc rest ih =>
      simp only [List.foldl_cons]
      rw [add_right_comm, ih]

lemma mapValuesSum_cons (k : String) (c : Int) (m : List (String × Int)) :
    mapValuesSum ((k, c) :: m) = mapValuesSum m + c := by
  show m.foldl (fun s kc => s + kc.2) (0 + c) = _
  rw [foldl_add_shift]
  rfl

lemma mapValuesSum_bump (m : List (String × Int)) (k : String) :
    mapValuesSum (bump m k) = mapValuesSum m + 1 := by
  induction m with
  | nil => rfl
  | cons kc rest ih =>
      rcases kc with ⟨k2, c⟩
      by_cases h : (k2 == k) = true
      · simp only [bump, if_pos h, mapValuesSum_cons]
        ring
      · simp only [bump, if_neg h, mapValuesSum_cons, ih]
        ring

lemma mapValuesSum_foldl_bump (l : List Worker) (m : List (String × Int)) :
    mapValuesSum (l.foldl (fun acc w => bump acc (roomKeyOf w)) m)
      = mapValuesSum m + (l.length : Int) := by
  induction l generalizing m with
  | nil => simp
  | cons w rest ih =>
      simp only [List.foldl_cons, List.length_cons, ih, mapValuesSum_bump]
      push_cast
      ring

lemma occupiedPlaces_eq_count (ws : List Worker) :
    occupiedPlaces ws
      = ((ws.filter (fun w => w.statut == "actif" && w.chambre != "")).length : Int) := by
  unfold occupiedPlaces workerRoomMap
  rw [mapValuesSum_foldl_bump]
  simp [mapValuesSum]

/-! ### Claims C1, C2, C9, C10 -/

/-- C1: the aggregator's occupied-places metric is the sum of the
worker-derived Room Key counts (active workers with a non-empty room
assignment, keyed by farm, room number and sex-derived gender
restriction); it therefore equals the number of active workers holding
a non-empty room assignment, and it is independent of the room
collection — in particular of the rooms' stored occupant counters. -/
theorem c1_occupiedPlaces_worker_derived
    (ws : List Worker) (rooms rooms2 : List Room) (t t2 : String) (n n2 : Int) :
    (aggregate ws rooms t n).occupiedPlaces = mapValuesSum (workerRoomMap ws)
    ∧ (aggregate ws rooms t n).occupiedPlaces
        = ((ws.filter (fun w => w.statut == "actif" && w.chambre != "")).length : Int)
    ∧ (aggregate ws rooms t n).occupiedPlaces = (aggregate ws rooms2 t2 n2).occupiedPlaces := by
  refine ⟨rfl, ?_, rfl⟩
  exact occupiedPlaces_eq_count ws

/-- C2 (amended): the aggregation result is a pure function of the worker
collection, the room collection, the time range and the current instant:
two calls agreeing on all four arguments return identical snapshots.
(As stated, purity in (workers, rooms, timeRange) alone is refuted by
`c2_aggregate_reads_clock`: the result also depends on the clock.) -/
theorem c2_aggregate_pure_function
    (ws ws2 : List Worker) (rooms rooms2 : List Room) (t t2 : String) (n n2 : Int)
    (hw : ws = ws2) (hr : rooms = rooms2) (ht : t = t2) (hn : n = n2) :
    aggregate ws rooms t n = aggregate ws2 rooms2 t2 n2 := by
  subst hw hr ht hn
  rfl

theorem c2_aggregate_pure_function_witness :
    ([] : List Worker) = [] ∧ ([] : List Room) = [] ∧ "month" = "month" ∧ (0 : Int) = 0
    ∧ aggregate [] [] "month" 0 = aggregate [] [] "month" 0 :=
  ⟨rfl, rfl, rfl, rfl, c2_aggregate_pure_function [] [] [] [] "month" "month" 0 0 rfl rfl rfl rfl⟩

/-- C2 (counterexample): two calls with identical worker collection, room
collection and time range, made at different instants, return different
snapshots (the recent-arrivals count differs), so the result is not a
pure function of (workers, rooms, timeRange) alone. -/
theorem c2_aggregate_reads_clock :
    aggregate [c2worker] [] "week" (5 * dayMs)
      ≠ aggregate [c2worker] [] "week" (100 * dayMs) := by
  intro h
  exact absurd (congrArg Stats.recentArrivals h) (by decide)

/-- C9: the available-places metric is the total capacity minus the
derived occupied places, with no clamping (a negative value is returned
as-is); hence occupied places plus available places equals the total
capacity for all inputs, including a concrete overbooked input where the
available places are negative. -/
theorem c9_availablePlaces_conservation
    (ws : List Worker) (rooms : List Room) (t : String) (n : Int) :
    (aggregate ws rooms t n).availablePlaces = totalCapacity rooms - occupiedPlaces ws
    ∧ (aggregate ws rooms t n).occupiedPlaces + (aggregate ws rooms t n).availablePlaces
        = (aggregate ws rooms t n).totalCapacity
    ∧ (aggregate [c2worker, { c2worker with nom := "b", chambre := "101" }] [] t n).availablePlaces
        = -1 := by
  refine ⟨rfl, ?_, ?_⟩
  · show occupiedPlaces ws + (totalCapacity rooms - occupiedPlaces ws) = totalCapacity rooms
    ring
  · show availablePlaces [c2worker, { c2worker with nom := "b", chambre := "101" }] [] = -1
    decide

/-- C10: the unrounded occupancy rate is occupied places over total
capacity times 100, and is 0 when the total capacity is 0; the snapshot
carries its two-decimal rounding; with no workers and no rooms the
aggregation returns occupancy rate 0 and available places 0. -/
theorem c10_occupancyRate_spec :
    (∀ (ws : List Worker) (rooms : List Room),
      (0 < totalCapacity rooms →
        occupancyRate ws rooms = ((occupiedPlaces ws : ℚ) / (totalCapacity rooms : ℚ)) * 100)
      ∧ (totalCapacity rooms = 0 → occupancyRate ws rooms = 0))
    ∧ (∀ (ws : List Worker) (rooms : List Room) (t : String) (n : Int),
        (aggregate ws rooms t n).occupancyRate = round2 (occupancyRate ws rooms))
    ∧ (∀ (t : String) (n : Int),
        (aggregate [] [] t n).occupancyRate = 0 ∧ (aggregate [] [] t n).availablePlaces = 0) := by
  refine ⟨fun ws rooms => ⟨fun h => ?_, fun h => ?_⟩, fun ws rooms t n => rfl, fun t n => ⟨?_, rfl⟩⟩
  · rw [occupancyRate, if_pos h]
  · rw [occupancyRate, if_neg (by omega)]
  · show round2 (occupancyRate [] []) = 0
    norm_num [occupancyRate, round2, jsRound, totalCapacity]

theorem c10_occupancyRate_spec_witness :
    0 < totalCapacity [c10room]
    ∧ occupancyRate [c2worker] [c10room]
        = ((occupiedPlaces [c2worker] : ℚ) / (totalCapacity [c10room] : ℚ)) * 100 :=
  ⟨by decide, (c10_occupancyRate_spec.1 [c2worker] [c10room]).1 (by decide)⟩

/-! ### Claims C4 and C8 -/

lemma length_filter_and_comm (l : List Worker) (p q : Worker → Bool) :
    (l.filter (fun w => p w && q w)).length = ((l.filter q).filter p).length := by
  induction l with
  | nil => rfl
  | cons w rest ih =>
      by_cases hp : p w = true <;> by_cases hq : q w = true <;>
        simp [List.filter_cons, hp, hq, ih]

/-- C4 (amended): the cutoff for the week/month/quarter ranges is now
minus 7/30/90 days, any unknown range falls to the 30-day default, and
for the `year` range the cutoff is the same calendar date one year
earlier (365 or 366 days before now — see `c4_year_range_not_365_days`);
recent arrivals count the active workers with entry date at or after the
cutoff, recent exits count the exited workers with exit date at or after
the cutoff, and the net change is their difference; a worker exiting 10
days before now is excluded at the week range and included at the month
range. -/
theorem c4_time_windows :
    (∀ n : Int, getTimeThreshold "week" n = n - 7 * dayMs
      ∧ getTimeThreshold "month" n = n - 30 * dayMs
      ∧ getTimeThreshold "quarter" n = n - 90 * dayMs)
    ∧ (∀ (s : String) (n : Int), s ≠ "week" → s ≠ "month" → s ≠ "quarter" → s ≠ "year" →
        getTimeThreshold s n = n - 30 * dayMs)
    ∧ (∀ (ws : List Worker) (rooms : List Room) (t : String) (n : Int),
        (aggregate ws rooms t n).recentArrivals
          = (((activeWorkers ws).filter
              (fun w => dateGE w.dateEntree (getTimeThreshold t n))).length : Int)
        ∧ (aggregate ws rooms t n).recentExits
          = (((exitedWorkers ws).filter
              (fun w => dateGE w.dateSortie (getTimeThreshold t n))).length : Int)
        ∧ (aggregate ws rooms t n).netChange
          = (aggregate ws rooms t n).recentArrivals - (aggregate ws rooms t n).recentExits)
    ∧ ((aggregate [c4exitWorker] [] "week" c4now).recentExits = 0
      ∧ (aggregate [c4exitWorker] [] "month" c4now).recentExits = 1)
    ∧ getTimeThreshold "year" (19509 * dayMs) = 19509 * dayMs - 365 * dayMs := by
  refine ⟨fun n => ⟨rfl, rfl, rfl⟩, ?_, fun ws rooms t n => ⟨?_, rfl, rfl⟩,
    ⟨by decide, by decide⟩, by decide⟩
  · intro s n h1 h2 h3 h4
    rw [getTimeThreshold, if_neg h1, if_neg h2, if_neg h3, if_neg h4]
  · show ((recentArrivals ws (getTimeThreshold t n)).length : Int) = _
    rw [recentArrivals]
    exact_mod_cast length_filter_and_comm ws _ _

/-- C4 (counterexample): for the year range the claimed cutoff "now minus
365 days" is wrong when a leap day intervenes: at 2024-06-01 the computed
cutoff is 2023-06-01, which is 366 days earlier. -/
theorem c4_year_range_not_365_days :
    getTimeThreshold "year" (19875 * dayMs) ≠ 19875 * dayMs - 365 * dayMs := by
  decide

theorem c4_time_windows_witness :
    ("total" ≠ "week" ∧ "total" ≠ "month" ∧ "total" ≠ "quarter" ∧ "total" ≠ "year")
    ∧ getTimeThreshold "total" 0 = 0 - 30 * dayMs :=
  ⟨⟨by decide, by decide, by decide, by decide⟩,
    c4_time_windows.2.1 "total" 0 (by decide) (by decide) (by decide) (by decide)⟩

lemma age_partition (l : List Worker) :
    (l.filter (fun w => decide (w.age ≥ 18) && decide (w.age ≤ 25))).length
      + (l.filter (fun w => decide (w.age ≥ 26) && decide (w.age ≤ 35))).length
      + (l.filter (fun w => decide (w.age ≥ 36) && decide (w.age ≤ 45))).length
      + (l.filter (fun w => decide (w.age ≥ 46))).length
      + (l.filter (fun w => decide (w.age < 18))).length
      = l.length := by
  induction l with
  | nil => rfl
  | cons w rest ih =>
      simp only [List.filter_cons]
      split_ifs <;>
        simp only [Bool.and_eq_true, decide_eq_true_eq, List.length_cons] at * <;>
        omega

lemma filter_age_between (l : List Worker) (lo hi : Int) :
    l.filter (fun w => decide (lo ≤ w.age ∧ w.age ≤ hi))
      = l.filter (fun w => decide (w.age ≥ lo) && decide (w.age ≤ hi)) := by
  apply List.filter_congr
  intro w _
  simp [Bool.decide_and]

/-- C8: the four age buckets of the snapshot count active workers with
ages in 18–25, 26–35, 36–45 and 46 and above, each inclusive on both
ends except the open-ended top bucket; ages below 18 fall in no bucket,
and the four bucket counts plus the count of active workers under 18
equal the number of active workers. -/
theorem c8_age_histogram (ws : List Worker) (rooms : List Room) (t : String) (n : Int) :
    (aggregate ws rooms t n).age18to25
        = (((activeWorkers ws).filter (fun w => decide (18 ≤ w.age ∧ w.age ≤ 25))).length : Int)
    ∧ (aggregate ws rooms t n).age26to35
        = (((activeWorkers ws).filter (fun w => decide (26 ≤ w.age ∧ w.age ≤ 35))).length : Int)
    ∧ (aggregate ws rooms t n).age36to45
        = (((activeWorkers ws).filter (fun w => decide (36 ≤ w.age ∧ w.age ≤ 45))).length : Int)
    ∧ (aggregate ws rooms t n).age46plus
        = (((activeWorkers ws).filter (fun w => decide (46 ≤ w.age))).length : Int)
    ∧ (aggregate ws rooms t n).age18to25 + (aggregate ws rooms t n).age26to35
        + (aggregate ws rooms t n).age36to45 + (aggregate ws rooms t n).age46plus
        + (((activeWorkers ws).filter (fun w => decide (w.age < 18))).length : Int)
        = (aggregate ws rooms t n).totalWorkers := by
  refine ⟨?_, ?_, ?_, ?_, ?_⟩
  · show ((age18to25 ws : Int)) = _
    rw [filter_age_between, age18to25]
  · show ((age26to35 ws : Int)) = _
    rw [filter_age_between, age26to35]
  · show ((age36to45 ws : Int)) = _
    rw [filter_age_between, age36to45]
  · show ((age46plus ws : Int)) = _
    rw [age46plus]
  · show ((age18to25 ws : Int)) + ((age26to35 ws : Int)) + ((age36to45 ws : Int))
        + ((age46plus ws : Int)) + _ = ((activeWorkers ws).length : Int)
    have h := age_partition (activeWorkers ws)
    rw [age18to25, age26to35, age36to45, age46plus]
    exact_mod_cast h

/-! ### Claims C3 and C7 -/

lemma sync_fixed_rooms_consistent (ws : List Worker) (rooms : List Room) :
    ((rooms.map (fixRoom ws)).filter
        (fun r => decide (r.occupantsActuels ≠ derivedOccupants ws r))) = [] := by
  rw [List.filter_eq_nil_iff]
  intro r hr
  rcases List.mem_map.mp hr with ⟨r0, _, rfl⟩
  intro h
  exact absurd rfl (of_decide_eq_true h)

/-- C3: the repair operation is idempotent — after one run, a second run
with the same workers checks the updated rooms, updates none of them and
reports no inconsistency; `roomsUpdated` counts exactly the rooms whose
stored count disagrees with the derived count, and a room already
consistent is left untouched by the repair. -/
theorem c3_reconcile_idempotent (ws : List Worker) (rooms : List Room) :
    (forceSyncRoomOccupancy ws ((forceSyncRoomOccupancy ws rooms).2)).1.roomsUpdated = 0
    ∧ (forceSyncRoomOccupancy ws ((forceSyncRoomOccupancy ws rooms).2)).1.inconsistenciesFound = []
    ∧ (forceSyncRoomOccupancy ws rooms).1.roomsUpdated
        = ((rooms.filter (fun r => decide (r.occupantsActuels ≠ derivedOccupants ws r))).length : Int)
    ∧ (∀ r ∈ rooms, r.occupantsActuels = derivedOccupants ws r → fixRoom ws r = r) := by
  refine ⟨?_, ?_, rfl, ?_⟩
  · show (((rooms.map (fixRoom ws)).filter
        (fun r => decide (r.occupantsActuels ≠ derivedOccupants ws r))).length : Int) = 0
    rw [sync_fixed_rooms_consistent]
    rfl
  · show ((rooms.map (fixRoom ws)).filter
        (fun r => decide (r.occupantsActuels ≠ derivedOccupants ws r))).map _ = []
    rw [sync_fixed_rooms_consistent]
    rfl
  · intro r _ h
    rw [fixRoom, ← h]

theorem c3_reconcile_idempotent_witness :
    (c3room ∈ [c3room] ∧ c3room.occupantsActuels = derivedOccupants [c3worker] c3room)
    ∧ fixRoom [c3worker] c3room = c3room :=
  ⟨⟨by decide, by decide⟩,
    (c3_reconcile_idempotent [c3worker] [c3room]).2.2.2 c3room (by decide) (by decide)⟩

/-- C7: the average stay duration is computed over the exited workers
having both an entry and an exit date: it is 0 when no such worker
exists, and otherwise the mean of the per-worker whole-day durations
`floor((exit - entry) / dayMs)`, rounded to the nearest integer. -/
theorem c7_average_stay (ws : List Worker) (rooms : List Room) (t : String) (n : Int) :
    ((exitedWorkers ws).filter (fun w => w.dateEntree.isSome && w.dateSortie.isSome) = [] →
      (aggregate ws rooms t n).averageStayDuration = 0)
    ∧ ((exitedWorkers ws).filter (fun w => w.dateEntree.isSome && w.dateSortie.isSome) ≠ [] →
      (aggregate ws rooms t n).averageStayDuration
        = jsRound ((sumInt (((exitedWorkers ws).filter
              (fun w => w.dateEntree.isSome && w.dateSortie.isSome)).map
              (fun w => Int.fdiv (w.dateSortie.getD 0 - w.dateEntree.getD 0) dayMs)) : ℚ)
            / ((((exitedWorkers ws).filter
              (fun w => w.dateEntree.isSome && w.dateSortie.isSome)).length : ℚ)))) := by
  constructor
  · intro h
    have hst : staysWithDuration ws = [] := by
      unfold staysWithDuration
      rw [h]
      rfl
    show averageStayDuration ws = 0
    rw [averageStayDuration, hst]
    simp
  · intro h
    have hpos : 0 < (staysWithDuration ws).length := by
      unfold staysWithDuration
      rw [List.length_map]
      exact List.length_pos.mpr h
    show averageStayDuration ws = _
    rw [averageStayDuration, if_pos hpos]
    unfold staysWithDuration
    rw [List.length_map]

theorem c7_average_stay_witness :
    ((exitedWorkers [c7worker]).filter
        (fun w => w.dateEntree.isSome && w.dateSortie.isSome) ≠ [])
    ∧ (aggregate [c7worker] [] "month" 0).averageStayDuration
        = jsRound ((sumInt (((exitedWorkers [c7worker]).filter
              (fun w => w.dateEntree.isSome && w.dateSortie.isSome)).map
              (fun w => Int.fdiv (w.dateSortie.getD 0 - w.dateEntree.getD 0) dayMs)) : ℚ)
            / ((((exitedWorkers [c7worker]).filter
              (fun w => w.dateEntree.isSome && w.dateSortie.isSome)).length : ℚ))) :=
  ⟨by decide, (c7_average_stay [c7worker] [] "month" 0).2 (by decide)⟩

/-! ### Claim C5 -/

lemma selectTop_cons_isSome (kc : String × Int) (rest : List (String × Int)) :
    (selectTop (kc :: rest)).isSome = true := by
  cases hr : selectTop rest with
  | none => simp [selectTop, hr]
  | some b =>
      simp only [selectTop, hr]
      by_cases h : kc.2 ≥ b.2
      · rw [if_pos (decide_eq_true h)]
        rfl
      · rw [if_neg (by simpa using h)]
        rfl

lemma selectTop_spec (l : List (String × Int)) (b : String × Int)
    (h : selectTop l = some b) :
    ∃ l1 l2, l = l1 ++ b :: l2 ∧ (∀ x ∈ l1, x.2 < b.2) ∧ (∀ x ∈ l, x.2 ≤ b.2) := by
  induction l generalizing b with
  | nil => simp [selectTop] at h
  | cons kc rest ih =>
      cases hrest : selectTop rest with
      | none =>
          simp only [selectTop, hrest] at h
          have hb : b = kc := by simpa using h.symm
          have hre : rest = [] := by
            cases rest with
            | nil => rfl
            | cons a as =>
                have hs := selectTop_cons_isSome a as
                rw [hrest] at hs
                simp at hs
          subst hb hre
          exact ⟨[], [], rfl, by simp, by simp⟩
      | some best =>
          simp only [selectTop, hrest] at h
          by_cases hge : kc.2 ≥ best.2
          · rw [if_pos (decide_eq_true hge)] at h
            have hb : b = kc := by simpa using h.symm
            subst hb
            obtain ⟨l1, l2, heq, hlt, hle⟩ := ih best hrest
            refine ⟨[], rest, rfl, by simp, ?_⟩
            intro x hx
            rcases List.mem_cons.mp hx with rfl | hx2
            · exact le_refl _
            · exact le_trans (hle x hx2) hge
          · rw [if_neg (by simpa using hge)] at h
            have hb : b = best := by simpa using h.symm
            subst hb
            obtain ⟨l1, l2, heq, hlt, hle⟩ := ih b hrest
            have hklt : kc.2 < b.2 := lt_of_not_ge hge
            refine ⟨kc :: l1, l2, by simp [heq], ?_, ?_⟩
            · intro x hx
              rcases List.mem_cons.mp hx with rfl | hx2
              · exact hklt
              · exact hlt x hx2
            · intro x hx
              rcases List.mem_cons.mp hx with rfl | hx2
              · exact le_of_lt hklt
              · exact hle x hx2

lemma countVal_bump (m : List (String × Int)) (k q : String) :
    countVal (bump m k) q = countVal m q + (if k == q then 1 else 0) := by
  induction m with
  | nil =>
      simp only [bump, countVal]
      by_cases h : k = q <;> simp [h]
  | cons kc rest ih =>
      rcases kc with ⟨k2, c⟩
      by_cases h2 : k2 = k
      · subst h2
        simp only [bump, beq_self_eq_true, if_true, countVal]
        by_cases hq : k2 = q <;> simp [hq]
      · rw [bump, if_neg (by simpa using h2)]
        simp only [countVal]
        by_cases hq : k2 = q
        · subst hq
          have hk : (k == k2) = false := by
            simp [beq_eq_false_iff_ne]
            exact fun e => h2 e.symm
          simp [hk]
        · simp [hq, ih]

lemma countVal_foldl (l : List Worker) (m : List (String × Int)) (q : String) :
    countVal (l.foldl (fun acc w => bump acc (reasonOf w)) m) q
      = countVal m q + ((l.filter (fun w => reasonOf w == q)).length : Int) := by
  induction l generalizing m with
  | nil => simp
  | cons w rest ih =>
      simp only [List.foldl_cons, List.filter_cons]
      rw [ih, countVal_bump]
      by_cases h : (reasonOf w == q) = true
      · simp [h]
        ring
      · simp [h]

lemma mem_insertAsc (x y : String × Int) (l : List (String × Int)) :
    y ∈ insertAsc x l ↔ y = x ∨ y ∈ l := by
  induction l with
  | nil => simp [insertAsc]
  | cons a as ih =>
      simp only [insertAsc]
      split
      · simp [List.mem_cons]
      · simp only [List.mem_cons, ih]
        tauto

lemma mem_sortAsc (y : String × Int) (l : List (String × Int)) :
    y ∈ sortAsc l ↔ y ∈ l := by
  induction l with
  | nil => simp [sortAsc]
  | cons a as ih =>
      show y ∈ insertAsc a (sortAsc as) ↔ _
      rw [mem_insertAsc, ih]
      simp [List.mem_cons]

lemma mem_objEntries (y : String × Int) (m : List (String × Int)) :
    y ∈ objEntries m ↔ y ∈ m := by
  simp only [objEntries, List.mem_append, mem_sortAsc, List.mem_filter]
  by_cases h : isArrayIndexKey y.1 = true <;> simp [h]

lemma objEntries_no_index (m : List (String × Int))
    (h : ∀ kc ∈ m, isArrayIndexKey kc.1 = false) :
    objEntries m = m := by
  have h1 : m.filter (fun kc => isArrayIndexKey kc.1) = [] :=
    List.filter_eq_nil_iff.mpr (fun a ha => by simp [h a ha])
  have h2 : m.filter (fun kc => !isArrayIndexKey kc.1) = m :=
    List.filter_eq_self.mpr (fun a ha => by simp [h a ha])
  rw [objEntries, h1, h2]
  rfl

/-- C5 (amended): the exit-reason histogram counts exited workers per
reason label (with the default label for an absent reason); the top exit
reason holds the maximum count, and among equal maxima it is the first
in the object's key enumeration order — array-index-like labels first in
ascending numeric order, then the remaining labels in first-encountered
insertion order; when no label is array-index-like the enumeration order
is exactly the insertion order, so ties break first-encountered. The
snapshot exposes the selected label and count. (As stated, the
unconditional insertion-order tie-break is refuted by
`c5_integer_key_breaks_insertion_order`.) -/
theorem c5_top_exit_reason (ws : List Worker) :
    (∀ q : String, countVal (exitReasons ws) q
        = (((exitedWorkers ws).filter (fun w => reasonOf w == q)).length : Int))
    ∧ (∀ b, topExitReasonOf ws = some b →
        (∀ x ∈ exitReasons ws, x.2 ≤ b.2)
        ∧ ∃ l1 l2, objEntries (exitReasons ws) = l1 ++ b :: l2 ∧ ∀ x ∈ l1, x.2 < b.2)
    ∧ ((∀ kc ∈ exitReasons ws, isArrayIndexKey kc.1 = false) →
        objEntries (exitReasons ws) = exitReasons ws)
    ∧ (∀ (rooms : List Room) (t : String) (n : Int) (b : String × Int),
        topExitReasonOf ws = some b →
        (aggregate ws rooms t n).topExitReason = b.1
        ∧ (aggregate ws rooms t n).topExitReasonCount = b.2) := by
  refine ⟨?_, ?_, objEntries_no_index _, ?_⟩
  · intro q
    unfold exitReasons
    rw [countVal_foldl]
    simp [countVal]
  · intro b hb
    obtain ⟨l1, l2, heq, hlt, hle⟩ := selectTop_spec _ b hb
    refine ⟨?_, l1, l2, heq, hlt⟩
    intro x hx
    exact hle x ((mem_objEntries x _).mpr hx)
  · intro rooms t n b hb
    constructor
    · show (match topExitReasonOf ws with | some kc => kc.1 | none => "Aucune") = b.1
      rw [hb]
    · show (match topExitReasonOf ws with | some kc => kc.2 | none => 0) = b.2
      rw [hb]

theorem c5_top_exit_reason_witness :
    topExitReasonOf c5scenarioD = some ("contract_end", 3)
    ∧ ((∀ x ∈ exitReasons c5scenarioD, x.2 ≤ ("contract_end", 3).2)
      ∧ ∃ l1 l2, objEntries (exitReasons c5scenarioD) = l1 ++ ("contract_end", 3) :: l2
          ∧ ∀ x ∈ l1, x.2 < ("contract_end", 3).2) :=
  ⟨by decide, (c5_top_exit_reason c5scenarioD).2.1 ("contract_end", 3) (by decide)⟩

/-- C5 (counterexample): with tied reasons "zebra" (inserted first) and
"100", the histogram lists "zebra" first, yet the reported top exit
reason is "100": `Object.entries` moves the array-index-like key "100"
ahead of the insertion order, so the tie does not break
first-encountered-in-insertion-order as claimed. -/
theorem c5_integer_key_breaks_insertion_order :
    exitReasons c5tieList = [("zebra", 1), ("100", 1)]
    ∧ (aggregate c5tieList [] "month" 0).topExitReason = "100"
    ∧ (aggregate c5tieList [] "month" 0).topExitReason ≠ "zebra" :=
  ⟨by decide, by decide, by decide⟩

/-! ### Claim C6 -/

lemma jsRound_add_rev (u : ℚ) (m : ℤ) :
    jsRound u + jsRound ((m : ℚ) - u) = m + (if Int.fract u = 1/2 then 1 else 0) := by
  have hf0 : (0:ℚ) ≤ Int.fract u := Int.fract_nonneg u
  have hf1 : Int.fract u < 1 := Int.fract_lt_one u
  have hu : u = (⌊u⌋ : ℚ) + Int.fract u := (Int.floor_add_fract u).symm
  have e1 : jsRound u = ⌊u⌋ + ⌊Int.fract u + 1/2⌋ := by
    rw [jsRound]
    conv_lhs => rw [hu]
    rw [add_assoc, Int.floor_int_add]
  have e2 : jsRound ((m:ℚ) - u) = (m - ⌊u⌋) + ⌊1/2 - Int.fract u⌋ := by
    rw [jsRound]
    have h2 : (m:ℚ) - u + 1/2 = ((m - ⌊u⌋ : ℤ) : ℚ) + (1/2 - Int.fract u) := by
      conv_lhs => rw [hu]
      push_cast
      ring
    rw [h2, Int.floor_int_add]
  rw [e1, e2]
  rcases lt_trichotomy (Int.fract u) (1/2) with hlt | heq | hgt
  · have g1 : ⌊Int.fract u + 1/2⌋ = 0 := by
      apply Int.floor_eq_zero_iff.mpr
      simp only [Set.mem_Ico]
      constructor <;> linarith
    have g2 : ⌊(1:ℚ)/2 - Int.fract u⌋ = 0 := by
      apply Int.floor_eq_zero_iff.mpr
      simp only [Set.mem_Ico]
      constructor <;> linarith
    rw [g1, g2, if_neg (ne_of_lt hlt)]
    ring
  · have g1 : ⌊Int.fract u + 1/2⌋ = 1 := by
      rw [heq]
      norm_num
    have g2 : ⌊(1:ℚ)/2 - Int.fract u⌋ = 0 := by
      rw [heq]
      norm_num
    rw [g1, g2, if_pos heq]
    ring
  · have g1 : ⌊Int.fract u + 1/2⌋ = 1 :=
      Int.floor_eq_iff.mpr ⟨by push_cast; linarith, by push_cast; linarith⟩
    have g2 : ⌊(1:ℚ)/2 - Int.fract u⌋ = -1 :=
      Int.floor_eq_iff.mpr ⟨by push_cast; linarith, by push_cast; linarith⟩
    rw [g1, g2, if_neg (ne_of_gt hgt)]
    ring

/-- C6 (amended): the unrounded turnover rate is exited over total in
scope times 100 (0 on an empty scope), the unrounded retention rate is
its complement, and the two unrounded values always sum to 100; the
snapshot outputs are the two-decimal roundings of these values, and the
two output values sum to 100 except when the turnover rate times 100
lands exactly on a half (both halves round up), in which case they sum
to 100.01 — see `c6_rounded_sum_not_100`. -/
theorem c6_rate_complement (ws : List Worker) (rooms : List Room) (t : String) (n : Int) :
    turnoverRate ws + retentionRate ws = 100
    ∧ (0 < ws.length → turnoverRate ws
        = (((exitedWorkers ws).length : ℚ) / (ws.length : ℚ)) * 100)
    ∧ (ws.length = 0 → turnoverRate ws = 0)
    ∧ (aggregate ws rooms t n).turnoverRate = round2 (turnoverRate ws)
    ∧ (aggregate ws rooms t n).retentionRate = round2 (retentionRate ws)
    ∧ (aggregate ws rooms t n).turnoverRate + (aggregate ws rooms t n).retentionRate
        = 100 + (if Int.fract (turnoverRate ws * 100) = 1/2 then 1/100 else 0) := by
  refine ⟨by rw [retentionRate]; ring, fun h => by rw [turnoverRate, if_pos h],
    fun h => by rw [turnoverRate, if_neg (by omega)], rfl, rfl, ?_⟩
  show round2 (turnoverRate ws) + round2 (retentionRate ws) = _
  rw [retentionRate, round2, round2]
  have h2 : (100 - turnoverRate ws) * 100 = ((10000 : ℤ) : ℚ) - turnoverRate ws * 100 := by
    push_cast
    ring
  rw [h2, div_add_div_same, ← Int.cast_add, jsRound_add_rev (turnoverRate ws * 100) 10000]
  split_ifs with hc
  · push_cast
    norm_num
  · push_cast
    norm_num

theorem c6_rate_complement_witness :
    0 < c6wsPair.length
    ∧ turnoverRate c6wsPair
        = (((exitedWorkers c6wsPair).length : ℚ) / (c6wsPair.length : ℚ)) * 100 :=
  ⟨by decide, (c6_rate_complement c6wsPair [] "month" 0).2.1 (by decide)⟩

/-- C6 (counterexample): with 32 workers of whom exactly one exited, the
two rounded output values are 3.13 and 96.88 (both 0.005-halves round
up), so their sum is 100.01, refuting the claimed output-value identity
`retentionRate + turnoverRate == 100`. -/
theorem c6_rounded_sum_not_100 :
    (aggregate c6ws32 [] "month" 0).turnoverRate
      + (aggregate c6ws32 [] "month" 0).retentionRate ≠ 100 := by
  have h1 : (exitedWorkers c6ws32).length = 1 := by decide
  have h2 : c6ws32.length = 32 := by decide
  show round2 (turnoverRate c6ws32) + round2 (retentionRate c6ws32) ≠ 100
  rw [retentionRate, turnoverRate, if_pos (by omega), h1, h2]
  norm_num [round2, jsRound]

example : daysFromCivil 1970 1 1 = 0 := by decide
example : civilFromDays 0 = (1970, 1, 1) := by decide
example : civilFromDays 19875 = (2024, 6, 1) := by decide
example : daysFromCivil 2024 6 1 = 19875 := by decide
example : daysFromCivil 2024 6 1 - daysFromCivil 2023 6 1 = 366 := by decide
example : daysFromCivil 2023 6 1 - daysFromCivil 2022 6 1 = 365 := by decide
example : daysFromCivil 2023 2 29 = daysFromCivil 2023 3 1 := by decide
example : (1:ℚ)/3 + 1/3 = 2/3 := by norm_num
example : round2 ((25:ℚ)/8) = 313/100 := by norm_num [round2, jsRound]
example : jsRound ((625:ℚ)/2) = 313 := by norm_num [jsRound]
example : Int.fdiv (-3) 2 = -2 := by decide
